import Mathlib

/-!
# Verification of cp-rs (`src/main.rs`)

A shallow embedding of the concurrent-copy program `cp-rs`.  Paths are
modelled as their component lists together with a flag recording whether the
textual form ends in a separator (Rust's `PathBuf` keeps the trailing `/` in
`to_str()` while `components`, `parent` and `strip_prefix` ignore it).
The filesystem is an oracle (`FS`) supplying the outcome of every fallible
call the program makes (`is_dir`/`is_file`, `read_dir`, `create_dir_all`,
`copy`).  Side effects are recorded as an event trace.

The worker loop of `lib::main` (lines 279-335 of `src/main.rs`) is embedded
as a deterministic single-worker step function `workerIter`; the statuses of
the *other* workers at the termination check are abstracted as a Boolean
environment input (`othersIdle`), since they are genuinely external to one
worker's semantics.  With `cpu_count = 1` the check `for (_id, worker) in
workers.iter()` ranges over exactly the observing worker, which has just set
itself `Idle`, so `othersIdle` is vacuously `true` in every iteration.
-/

namespace Cp

/-- A path, as its list of non-empty components plus whether the textual form
the user supplied ends in a separator (`"/a/b/"` has `trailing = true`).
`PathBuf::components`, `parent` and `strip_prefix` ignore the flag. -/
structure RPath where
  comps : List String
  trailing : Bool
deriving DecidableEq, Repr

/-- `Path::parent`: drops the last component; `None` on the root / empty path. -/
def RPath.parent (p : RPath) : Option RPath :=
  match p.comps with
  | [] => none
  | _ :: _ => some ⟨p.comps.dropLast, false⟩

/-- `Path::strip_prefix` on component lists: the suffix left after removing
`src`, or `none` when `src` is not a component-wise prefix. -/
def stripPrefixComps : List String → List String → Option (List String)
  | [], f => some f
  | _ :: _, [] => none
  | s :: ss, f :: fs => if s = f then stripPrefixComps ss fs else none

/-- `get_dest` (src/main.rs:120-123): `dest.join(file.strip_prefix(src))`.
The Rust code `.expect`s the strip; the `none` case models that panic. -/
def get_dest (src dest file : RPath) : Option RPath :=
  (stripPrefixComps src.comps file.comps).map fun rel => ⟨dest.comps ++ rel, false⟩

/-- What a path names on disk: directory, regular file, or neither (absent,
symlink, socket, device, ...). -/
inductive FileType
  | dir
  | file
  | other
deriving DecidableEq, Repr

/-- One result yielded by the `fs::read_dir` iterator: a successfully read
entry whose `file_type()` also succeeded (carrying the child's name and
kind — `entry.path()` is the scanned directory joined with that name), an
entry whose `file_type()` call failed, or an `Err` yielded by the iterator
itself.  The Rust loop keeps consuming the iterator after an `Err`, so items
after a failure are part of the stream. -/
inductive DirItem
  | okItem (name : String) (kind : FileType)
  | typeErr (msg : String)
  | entryErr (msg : String)
deriving DecidableEq, Repr

/-- The filesystem oracle: outcomes of every fallible call, keyed by
component lists (queries ignore the trailing-separator flag).
`mkdirErr p = none` means `create_dir_all` succeeds (also when the directory
already exists); `copyErr f d = none` means `fs::copy f d` succeeds. -/
structure FS where
  typeOf : List String → FileType
  listing : List String → Except String (List DirItem)
  mkdirErr : List String → Option String
  copyErr : List String → List String → Option String

/-- Work-stack entry (src/main.rs:69-72): `File(source_root, absolute_path)`
or `Dir(source_root, absolute_path)`. -/
inductive Entry
  | File (src : RPath) (path : RPath)
  | Dir (src : RPath) (path : RPath)
deriving DecidableEq, Repr

/-- Per-worker status (src/main.rs:51-56), spellings as in the source. -/
inductive Task
  | Initalizing
  | Idle
  | Scanning (p : RPath)
  | Coping (p : RPath)
deriving DecidableEq, Repr

/-- An observable effect of the run. `mkdirA`/`copyA` record a *successful*
`create_dir_all`/`fs::copy`; `errorE` is one call of `send_to_error`
(src/main.rs:90-92); `pushE` is one batch append to the shared stack under
its lock; `statusE` is one `update_task`; `panicE` models an `expect`
failure. -/
inductive Event
  | statusE (t : Task)
  | errorE (msg : String)
  | mkdirA (p : RPath)
  | copyA (src dst : RPath)
  | pushE (es : List Entry)
  | panicE (msg : String)
deriving DecidableEq, Repr

/-- Number of error events (`send_to_error` calls) in a trace. -/
def errCount (l : List Event) : Nat :=
  (l.filter fun e => match e with | .errorE _ => true | _ => false).length

/-- The per-item body of the `read_dir` loop (src/main.rs:98-112): a child of
kind `dir`/`file` is appended as an entry, any other kind is skipped, and
each `Err` (of the iterator or of `file_type()`) is reported once. -/
def classifyItem (src dir : RPath) (acc : List Entry × List Event) :
    DirItem → List Entry × List Event
  | .okItem name kind =>
    match kind with
    | .dir => (acc.1 ++ [Entry.Dir src ⟨dir.comps ++ [name], false⟩], acc.2)
    | .file => (acc.1 ++ [Entry.File src ⟨dir.comps ++ [name], false⟩], acc.2)
    | .other => acc
  | .typeErr m => (acc.1, acc.2 ++ [Event.errorE m])
  | .entryErr m => (acc.1, acc.2 ++ [Event.errorE m])

/-- The `read_dir` loop over an already-opened iterator's stream, followed by
`entries.reverse()` (src/main.rs:98-117). -/
def readDirItems (src dir : RPath) (items : List DirItem) :
    List Entry × List Event :=
  let r := items.foldl (classifyItem src dir) ([], [])
  (r.1.reverse, r.2)

/-- `read_dir` (src/main.rs:94-118): an error opening the directory is
reported once and yields no entries; otherwise the item loop runs and the
collected entries are reversed. -/
def read_dir (fs : FS) (src dir : RPath) : List Entry × List Event :=
  match fs.listing dir.comps with
  | .error m => ([], [Event.errorE m])
  | .ok items => readDirItems src dir items

/-- `mk_dir` (src/main.rs:125-130): resolve the destination and
`create_dir_all` it; a failure is reported once and not propagated. -/
def mk_dir (fs : FS) (src dest dir : RPath) : List Event :=
  match get_dest src dest dir with
  | none => [Event.panicE "Not a prefix"]
  | some nd =>
    match fs.mkdirErr nd.comps with
    | some e => [Event.errorE e]
    | none => [Event.mkdirA nd]

/-- `cp_file` (src/main.rs:132-137): resolve the destination and `fs::copy`;
a failure is reported once and not propagated. -/
def cp_file (fs : FS) (src dest file : RPath) : List Event :=
  match get_dest src dest file with
  | none => [Event.panicE "Not a prefix"]
  | some nd =>
    match fs.copyErr file.comps nd.comps with
    | some e => [Event.errorE e]
    | none => [Event.copyA file nd]

/-- The fatal pre-run failures of `lib::main`: the `panic!` for a
multi-source run whose destination is an existing file (src/main.rs:205-209),
the `panic!` for a source that is neither file nor directory
(src/main.rs:224), and the `.unwrap()` on `entry.parent()`
(src/main.rs:219,222). -/
inductive CpError
  | configMultiSourceFileDest
  | configNotFileOrDir
  | panicNoParent
deriving DecidableEq, Repr

/-- The per-source body of the initial-entry loop (src/main.rs:213-226): a
directory given with a trailing separator anchors at itself, one given
without anchors at its parent, a regular file anchors at its parent, and
anything else is fatal. -/
def mkInitialEntry (fs : FS) (e : RPath) : Except CpError Entry :=
  match fs.typeOf e.comps with
  | .dir =>
    if e.trailing then .ok (Entry.Dir e e)
    else
      match e.parent with
      | some p => .ok (Entry.Dir p e)
      | none => .error .panicNoParent
  | .file =>
    match e.parent with
    | some p => .ok (Entry.File p e)
    | none => .error .panicNoParent
  | .other => .error .configNotFileOrDir

/-- The initial-entry loop over all sources (src/main.rs:211-226);
a `panic!` aborts the whole run, hence the short-circuiting `Except`. -/
def initialEntries (fs : FS) : List RPath → Except CpError (List Entry)
  | [] => .ok []
  | e :: rest => do
    let ent ← mkInitialEntry fs e
    let rs ← initialEntries fs rest
    .ok (ent :: rs)

/-- The pre-run phase of `lib::main` (src/main.rs:205-226): the multi-source
destination check, then initial-entry construction. -/
def setup (fs : FS) (sources : List RPath) (dest : RPath) :
    Except CpError (List Entry) :=
  if 1 < sources.length ∧ fs.typeOf dest.comps = FileType.file then
    .error .configMultiSourceFileDest
  else initialEntries fs sources

/-- `Vec::pop` on the shared stack (src/main.rs:280): removes and returns the
last element, or reports empty. -/
def popStack (l : List Entry) : Option Entry × List Entry :=
  (l.getLast?, l.dropLast)

/-- `Vec::append` on the shared stack (src/main.rs:295): appends the batch in
order under one lock acquisition. -/
def pushMany (l xs : List Entry) : List Entry :=
  l ++ xs

/-- State of one worker together with the shared state it sees: the shared
entry stack, the shared processed counter, this worker's status, and the
event trace of the run so far. -/
structure WState where
  stack : List Entry
  processed : Nat
  status : Task
  trace : List Event
deriving DecidableEq, Repr

/-- The `Entry::Dir` branch (src/main.rs:283-303): set status `Scanning`,
`mk_dir` the resolved destination, `read_dir` the children, append the batch
to the stack.  Returns the pushed batch and the emitted events, in program
order. -/
def dirStep (fs : FS) (dest src dir : RPath) : List Entry × List Event :=
  let mkEvs := mk_dir fs src dest dir
  let (kids, scanEvs) := read_dir fs src dir
  (kids, Event.statusE (Task.Scanning dir) :: mkEvs ++ scanEvs ++ [Event.pushE kids])

/-- The `Entry::File` branch (src/main.rs:304-319): set status `Coping`,
`cp_file` to the resolved destination. -/
def fileStep (fs : FS) (dest src file : RPath) : List Event :=
  Event.statusE (Task.Coping file) :: cp_file fs src dest file

/-- One iteration of the worker loop (src/main.rs:279-335): pop under the
lock; process a popped `Dir` or `File` entry (incrementing the shared
processed counter); do nothing on `None`; then — unconditionally — set this
worker's status to `Idle` and run the all-idle break check.  `othersIdle`
abstracts whether every *other* worker's status reads `Idle` at that check
(the observing worker itself was just set `Idle`, so `should_break`
equals `othersIdle`; with a single worker it is vacuously `true`).
Returns the new state and the value of `should_break`. -/
def workerIter (fs : FS) (dest : RPath) (othersIdle : Bool) (s : WState) :
    WState × Bool :=
  let (popped, rest) := popStack s.stack
  let s₁ : WState :=
    match popped with
    | some (Entry.Dir src dir) =>
      let (kids, evs) := dirStep fs dest src dir
      { stack := pushMany rest kids
        processed := s.processed + 1
        status := Task.Scanning dir
        trace := s.trace ++ evs }
    | some (Entry.File src file) =>
      { stack := rest
        processed := s.processed + 1
        status := Task.Coping file
        trace := s.trace ++ fileStep fs dest src file }
    | none => { s with stack := rest }
  ({ s₁ with status := Task.Idle, trace := s₁.trace ++ [Event.statusE Task.Idle] },
   othersIdle)

/-- The worker loop, fuelled: run iterations until `should_break` or the fuel
runs out.  `env` supplies the `othersIdle` observation of each successive
iteration; past its end the default is `true` (the single-worker case, where
the check ranges over the observing worker alone).  Returns the final state
and whether the loop exited via `break` (as opposed to exhausting fuel). -/
def workerRun (fs : FS) (dest : RPath) : Nat → List Bool → WState → WState × Bool
  | 0, _, s => (s, false)
  | fuel + 1, env, s =>
    let r := workerIter fs dest (env.headD true) s
    if r.2 then (r.1, true) else workerRun fs dest fuel env.tail r.1

/-- `lib::main` after logger setup, for a single worker: the pre-run phase,
then — only when it did not abort — the worker loop started on the initial
entries with the processed counter at `0` and status `Initalizing`
(src/main.rs:269-276).  A `ConfigurationError` result means the run aborted
before any worker thread was spawned: no worker state exists and no event
(in particular no copy) was produced. -/
def mainRun (fs : FS) (sources : List RPath) (dest : RPath) (fuel : Nat)
    (env : List Bool) : Except CpError (WState × Bool) :=
  match setup fs sources dest with
  | .error e => .error e
  | .ok entries =>
    .ok (workerRun fs dest fuel env ⟨entries, 0, Task.Initalizing, []⟩)

/-- A concrete filesystem for witnesses and counterexamples: `/s` and `/s/d`
are directories, `/s/d` contains the single regular file `c`, every
`create_dir_all` and `copy` succeeds. -/
def fsA : FS where
  typeOf := fun c =>
    if c = ["s"] ∨ c = ["s", "d"] then .dir
    else if c = ["s", "d", "c"] then .file
    else .other
  listing := fun c =>
    if c = ["s", "d"] then .ok [DirItem.okItem "c" FileType.file] else .ok []
  mkdirErr := fun _ => none
  copyErr := fun _ _ => none

/-- The error event a single `read_dir` stream item gives rise to, if any:
one report per failed item, none for a successfully classified child. -/
def itemErrorEvent : DirItem → Option Event
  | .okItem _ _ => none
  | .typeErr m => some (Event.errorE m)
  | .entryErr m => some (Event.errorE m)

/-- A filesystem whose directory `/s/d` yields an iterator error first and a
regular child `b` after it. -/
def fsMidErr : FS where
  typeOf := fun c => if c = ["s"] ∨ c = ["s", "d"] then .dir else .other
  listing := fun c =>
    if c = ["s", "d"] then
      .ok [DirItem.entryErr "boom", DirItem.okItem "b" FileType.file]
    else .ok []
  mkdirErr := fun _ => none
  copyErr := fun _ _ => none

/-- A filesystem whose directory `/s/d` lists the two regular children `a`
(discovered first) and `b` (discovered second). -/
def fsTwoKids : FS where
  typeOf := fun c => if c = ["s"] ∨ c = ["s", "d"] then .dir else .other
  listing := fun c =>
    if c = ["s", "d"] then
      .ok [DirItem.okItem "a" FileType.file, DirItem.okItem "b" FileType.file]
    else .ok []
  mkdirErr := fun _ => none
  copyErr := fun _ _ => none

/-- A filesystem on which every `fs::read_dir` call itself fails. -/
def fsOpenErr : FS where
  typeOf := fun _ => .dir
  listing := fun _ => .error "denied"
  mkdirErr := fun _ => none
  copyErr := fun _ _ => none

/-- A filesystem on which copying `/s/d/c` to `/x/d/c` is denied and
creating `/x/d` is denied; everything else succeeds and `/s/d` is empty. -/
def fsDenied : FS where
  typeOf := fun c =>
    if c = ["s"] ∨ c = ["s", "d"] then .dir
    else if c = ["s", "d", "c"] then .file
    else .other
  listing := fun _ => .ok []
  mkdirErr := fun d => if d = ["x", "d"] then some "mkdir denied" else none
  copyErr := fun f d =>
    if f = ["s", "d", "c"] ∧ d = ["x", "d", "c"] then some "copy denied" else none

theorem stripPrefixComps_append (s rest : List String) :
    stripPrefixComps s (s ++ rest) = some rest := by
  induction s with
  | nil => rfl
  | cons a s ih => simp [stripPrefixComps, ih]

/-- C3: Path resolution: for every `source_root`, `dest_root` and
`absolute_path` that is `source_root` or a descendant of it (i.e. its
components are `source_root`'s followed by some `rest`), `get_dest` yields
`dest_root` joined with `absolute_path` minus the `source_root` prefix; in
particular `/a/b`, `/x`, `/a/b/c/d.txt` resolve to `/x/c/d.txt`. -/
theorem c3_path_resolution :
    (∀ (s d rest : List String) (t₁ t₂ t₃ : Bool),
      get_dest ⟨s, t₁⟩ ⟨d, t₂⟩ ⟨s ++ rest, t₃⟩ = some ⟨d ++ rest, false⟩) ∧
    get_dest ⟨["a", "b"], false⟩ ⟨["x"], false⟩ ⟨["a", "b", "c", "d.txt"], false⟩
      = some ⟨["x", "c", "d.txt"], false⟩ := by
  constructor
  · intro s d rest t₁ t₂ t₃
    simp [get_dest, stripPrefixComps_append]
  · rfl

/-- C1: REFUTED BY THE CODE — the claimed termination safety ("no worker
ever exits its loop while the shared entry stack is non-empty") fails.
With a single worker (`cpu_count = 1`, so the all-idle check ranges over the
observing worker alone and `othersIdle` is vacuously `true`) and the initial
stack `[Dir(/s, /s/d)]` over `fsA` (where `/s/d` contains the regular file
`c`), the worker pops the directory, pushes `File(/s, /s/d/c)`, sets itself
`Idle` and breaks — exiting its loop with the stack non-empty, so the child
is never copied. -/
theorem c1_premature_exit_on_nonempty_stack :
    (workerRun fsA ⟨["x"], false⟩ 5 []
        ⟨[Entry.Dir ⟨["s"], false⟩ ⟨["s", "d"], false⟩], 0, Task.Initalizing, []⟩).2
      = true ∧
    (workerRun fsA ⟨["x"], false⟩ 5 []
        ⟨[Entry.Dir ⟨["s"], false⟩ ⟨["s", "d"], false⟩], 0, Task.Initalizing, []⟩).1.stack
      = [Entry.File ⟨["s"], false⟩ ⟨["s", "d", "c"], false⟩] ∧
    [Entry.File ⟨["s"], false⟩ ⟨["s", "d", "c"], false⟩] ≠ ([] : List Entry) := by
  refine ⟨rfl, rfl, by decide⟩

/-- C2: REFUTED BY THE CODE — the worker does *not* reserve `Idle` and the
all-idle cross-check for iterations whose pop found nothing: lines 323-334
of src/main.rs run after *every* iteration.  Here the worker pops and copies
a `File` entry (the processed counter becomes `1` and the copy event is in
the trace), yet its status at the end of the iteration is `Idle` and the
break check ran and returned `true`, exiting the loop. -/
theorem c2_idle_check_after_successful_pop :
    (workerIter fsA ⟨["x"], false⟩ true
        ⟨[Entry.File ⟨["s", "d"], false⟩ ⟨["s", "d", "c"], false⟩], 0,
          Task.Initalizing, []⟩).1.processed = 1 ∧
    (workerIter fsA ⟨["x"], false⟩ true
        ⟨[Entry.File ⟨["s", "d"], false⟩ ⟨["s", "d", "c"], false⟩], 0,
          Task.Initalizing, []⟩).1.status = Task.Idle ∧
    (workerIter fsA ⟨["x"], false⟩ true
        ⟨[Entry.File ⟨["s", "d"], false⟩ ⟨["s", "d", "c"], false⟩], 0,
          Task.Initalizing, []⟩).2 = true := by
  refine ⟨rfl, rfl, rfl⟩

/-- C4: whenever more than one source is supplied and the destination is an
existing regular file, the run fails with the multi-source
`ConfigurationError`; since `mainRun` returns `.error`, no worker state
exists, so no worker was started and no copy event was produced. -/
theorem c4_multi_source_file_dest (fs : FS) (sources : List RPath)
    (dest : RPath) (fuel : Nat) (env : List Bool)
    (h₁ : 1 < sources.length)
    (h₂ : fs.typeOf dest.comps = FileType.file) :
    mainRun fs sources dest fuel env = .error CpError.configMultiSourceFileDest := by
  simp [mainRun, setup, h₁, h₂]

/-- Witness for C4 at `sources = [/a, /b]`, `dest = /s/d/c` (a regular file
of `fsA`). -/
theorem c4_multi_source_file_dest_witness :
    1 < ([⟨["a"], false⟩, ⟨["b"], false⟩] : List RPath).length ∧
    fsA.typeOf ["s", "d", "c"] = FileType.file ∧
    mainRun fsA [⟨["a"], false⟩, ⟨["b"], false⟩] ⟨["s", "d", "c"], false⟩ 3 []
      = .error CpError.configMultiSourceFileDest :=
  ⟨by decide, by decide,
    c4_multi_source_file_dest fsA [⟨["a"], false⟩, ⟨["b"], false⟩]
      ⟨["s", "d", "c"], false⟩ 3 [] (by decide) (by decide)⟩

/-- C5: initial entry construction: a source naming a directory given
without a trailing separator anchors at its parent; given with a trailing
separator it anchors at itself; a source naming a regular file anchors at
its parent; a source that is neither is a fatal `ConfigurationError`. -/
theorem c5_initial_entry_construction (fs : FS) (e p : RPath) :
    (fs.typeOf e.comps = FileType.dir → e.trailing = true →
      mkInitialEntry fs e = .ok (Entry.Dir e e)) ∧
    (fs.typeOf e.comps = FileType.dir → e.trailing = false → e.parent = some p →
      mkInitialEntry fs e = .ok (Entry.Dir p e)) ∧
    (fs.typeOf e.comps = FileType.file → e.parent = some p →
      mkInitialEntry fs e = .ok (Entry.File p e)) ∧
    (fs.typeOf e.comps = FileType.other →
      mkInitialEntry fs e = .error CpError.configNotFileOrDir) := by
  refine ⟨fun h₁ h₂ => ?_, fun h₁ h₂ h₃ => ?_, fun h₁ h₂ => ?_, fun h₁ => ?_⟩ <;>
    simp [mkInitialEntry, h₁, *]

/-- Witness for C5: all four branches at concrete sources over `fsA`
(`/s/` a directory with trailing separator, `/s/d` one without, `/s/d/c` a
regular file, `/z` neither). -/
theorem c5_initial_entry_construction_witness :
    mkInitialEntry fsA ⟨["s"], true⟩ = .ok (Entry.Dir ⟨["s"], true⟩ ⟨["s"], true⟩) ∧
    mkInitialEntry fsA ⟨["s", "d"], false⟩
      = .ok (Entry.Dir ⟨["s"], false⟩ ⟨["s", "d"], false⟩) ∧
    mkInitialEntry fsA ⟨["s", "d", "c"], false⟩
      = .ok (Entry.File ⟨["s", "d"], false⟩ ⟨["s", "d", "c"], false⟩) ∧
    mkInitialEntry fsA ⟨["z"], false⟩ = .error CpError.configNotFileOrDir :=
  ⟨(c5_initial_entry_construction fsA ⟨["s"], true⟩ ⟨[], false⟩).1
      (by decide) (by decide),
   (c5_initial_entry_construction fsA ⟨["s", "d"], false⟩ ⟨["s"], false⟩).2.1
      (by decide) (by decide) (by decide),
   (c5_initial_entry_construction fsA ⟨["s", "d", "c"], false⟩ ⟨["s", "d"], false⟩).2.2.1
      (by decide) (by decide),
   (c5_initial_entry_construction fsA ⟨["z"], false⟩ ⟨[], false⟩).2.2.2
      (by decide)⟩

theorem classifyItem_foldl_events (src dir : RPath) (items : List DirItem) :
    ∀ acc : List Entry × List Event,
      (items.foldl (classifyItem src dir) acc).2
        = acc.2 ++ items.filterMap itemErrorEvent := by
  induction items with
  | nil => intro acc; simp
  | cons it rest ih =>
    intro acc
    cases it with
    | okItem n k =>
      cases k <;>
        simp [List.foldl_cons, classifyItem, itemErrorEvent, ih]
    | typeErr m =>
      simp [List.foldl_cons, classifyItem, itemErrorEvent, ih]
    | entryErr m =>
      simp [List.foldl_cons, classifyItem, itemErrorEvent, ih]

theorem classifyItem_foldl_fst_indep (src dir : RPath) (items : List DirItem) :
    ∀ (a : List Entry) (b b' : List Event),
      (items.foldl (classifyItem src dir) (a, b)).1
        = (items.foldl (classifyItem src dir) (a, b')).1 := by
  induction items with
  | nil => intro a b b'; rfl
  | cons it rest ih =>
    intro a b b'
    cases it with
    | okItem n k => cases k <;> exact ih _ _ _
    | typeErr m => exact ih _ _ _
    | entryErr m => exact ih _ _ _

theorem readDirItems_events (src dir : RPath) (items : List DirItem) :
    (readDirItems src dir items).2 = items.filterMap itemErrorEvent := by
  simp [readDirItems, classifyItem_foldl_events]

theorem read_dir_events_errorE (fs : FS) (src dir : RPath) :
    ∀ e ∈ (read_dir fs src dir).2, ∃ m, e = Event.errorE m := by
  intro e he
  unfold read_dir at he
  cases h : fs.listing dir.comps with
  | error m =>
    rw [h] at he
    simp at he
    exact ⟨m, he⟩
  | ok items =>
    rw [h] at he
    rw [readDirItems_events] at he
    rcases List.mem_filterMap.mp he with ⟨it, -, hit⟩
    cases it with
    | okItem n k => simp [itemErrorEvent] at hit
    | typeErr m => simp [itemErrorEvent] at hit; exact ⟨m, hit.symm⟩
    | entryErr m => simp [itemErrorEvent] at hit; exact ⟨m, hit.symm⟩

theorem mk_dir_no_push (fs : FS) (src dest dir : RPath) :
    ∀ e ∈ mk_dir fs src dest dir, ∀ es, e ≠ Event.pushE es := by
  intro e he es
  unfold mk_dir at he
  cases h : get_dest src dest dir with
  | none => rw [h] at he; simp at he; simp [he]
  | some nd =>
    rw [h] at he
    cases h' : fs.mkdirErr nd.comps with
    | none => simp [h'] at he; simp [he]
    | some m => simp [h'] at he; simp [he]

/-- C6: in the event trace of the `Entry::Dir` branch, the (successful)
recursive creation of the directory's destination occurs strictly before the
batch push of that directory's children onto the shared stack. -/
theorem c6_mkdir_before_children_push (fs : FS) (dest src dir : RPath)
    (i j : Nat) (nd : RPath) (es : List Entry)
    (hi : (dirStep fs dest src dir).2.get? i = some (Event.mkdirA nd))
    (hj : (dirStep fs dest src dir).2.get? j = some (Event.pushE es)) :
    i < j := by
  rcases hrd : read_dir fs src dir with ⟨kids, scanEvs⟩
  have hstruct : (dirStep fs dest src dir).2
      = (Event.statusE (Task.Scanning dir) :: (mk_dir fs src dest dir ++ scanEvs))
        ++ [Event.pushE kids] := by
    simp [dirStep, hrd]
  set base : List Event :=
    Event.statusE (Task.Scanning dir) :: (mk_dir fs src dest dir ++ scanEvs)
    with hbase
  have hnopush : ∀ es', Event.pushE es' ∉ base := by
    intro es' hmem
    rw [hbase] at hmem
    rcases List.mem_cons.mp hmem with h | h
    · exact Event.noConfusion h
    · rcases List.mem_append.mp h with h' | h'
      · exact mk_dir_no_push fs src dest dir _ h' es' rfl
      · have h'' : Event.pushE es' ∈ (read_dir fs src dir).2 := by
          rw [hrd]; exact h'
        rcases read_dir_events_errorE fs src dir _ h'' with ⟨m, hm⟩
        exact Event.noConfusion hm
  rw [hstruct] at hi hj
  have hjlen : j < base.length + 1 := by
    have := (List.get?_eq_some.mp hj).1
    simpa using this
  have hjeq : j = base.length := by
    by_contra hne
    have hlt : j < base.length := by omega
    rw [List.get?_append hlt] at hj
    exact hnopush es (List.get?_mem hj)
  have hilen : i < base.length + 1 := by
    have := (List.get?_eq_some.mp hi).1
    simpa using this
  have hine : i ≠ base.length := by
    intro h
    rw [h, List.get?_concat_length] at hi
    exact Event.noConfusion (Option.some.inj hi)
  omega

/-- Witness for C6: over `fsA`, scanning `/s/d` produces the trace
`[statusE (Scanning /s/d), mkdirA /x/d, pushE [File /s/d/c]]`; the `mkdirA`
at index `1` precedes the `pushE` at index `2`. -/
theorem c6_mkdir_before_children_push_witness :
    (dirStep fsA ⟨["x"], false⟩ ⟨["s"], false⟩ ⟨["s", "d"], false⟩).2.get? 1
      = some (Event.mkdirA ⟨["x", "d"], false⟩) ∧
    (dirStep fsA ⟨["x"], false⟩ ⟨["s"], false⟩ ⟨["s", "d"], false⟩).2.get? 2
      = some (Event.pushE
          [Entry.File ⟨["s"], false⟩ ⟨["s", "d", "c"], false⟩]) ∧
    1 < 2 :=
  ⟨by decide, by decide,
    c6_mkdir_before_children_push fsA ⟨["x"], false⟩ ⟨["s"], false⟩
      ⟨["s", "d"], false⟩ 1 2 ⟨["x", "d"], false⟩
      [Entry.File ⟨["s"], false⟩ ⟨["s", "d", "c"], false⟩]
      (by decide) (by decide)⟩

/-- C10: a scanned child whose file type is neither a regular file nor a
directory is silently omitted: the listing with such an item produces exactly
the entries and events of the listing without it (no entry, no error event),
and a lone such child produces nothing at all. -/
theorem c10_other_kind_silently_skipped (src dir : RPath)
    (xs ys : List DirItem) (n : String) :
    readDirItems src dir (xs ++ [DirItem.okItem n FileType.other] ++ ys)
      = readDirItems src dir (xs ++ ys) ∧
    readDirItems src dir [DirItem.okItem n FileType.other] = ([], []) := by
  constructor
  · simp [readDirItems, List.foldl_append, classifyItem]
  · rfl

/-- C7 counterexample: REFUTES "a read error truncates the produced sequence
at the failure point (no children after the failing position are yielded)".
Over `fsMidErr` the stream of `/s/d` yields an iterator error first and the
regular child `b` strictly after it, yet `read_dir` still yields the entry
for `b` (the loop at src/main.rs:98-112 keeps consuming the iterator after
an `Err`). -/
theorem c7_counterexample_child_after_error :
    fsMidErr.listing ["s", "d"]
      = .ok [DirItem.entryErr "boom", DirItem.okItem "b" FileType.file] ∧
    read_dir fsMidErr ⟨["s"], false⟩ ⟨["s", "d"], false⟩
      = ([Entry.File ⟨["s"], false⟩ ⟨["s", "d", "b"], false⟩],
         [Event.errorE "boom"]) ∧
    Entry.File ⟨["s"], false⟩ ⟨["s", "d", "b"], false⟩
      ∈ (read_dir fsMidErr ⟨["s"], false⟩ ⟨["s", "d"], false⟩).1 :=
  ⟨rfl, rfl, by decide⟩

/-- C7 amended: when listing a directory's children, each read error is
reported exactly once (the error events are exactly one per failed stream
item, in order) and the listing is *not* truncated: the entries produced
with a failing item in the stream are exactly those produced without it, so
children after the failing position are still yielded.  Only a failure to
open the directory itself yields no children, with that error reported
once. -/
theorem c7_read_errors_reported_once_not_truncating (fs : FS) (src dir : RPath)
    (xs ys : List DirItem) (m msg : String) :
    (∀ items, (readDirItems src dir items).2 = items.filterMap itemErrorEvent) ∧
    (readDirItems src dir (xs ++ [DirItem.entryErr m] ++ ys)).1
      = (readDirItems src dir (xs ++ ys)).1 ∧
    (fs.listing dir.comps = .error msg →
      read_dir fs src dir = ([], [Event.errorE msg])) := by
  refine ⟨fun items => readDirItems_events src dir items, ?_, fun h => ?_⟩
  · rcases hxs : xs.foldl (classifyItem src dir) ([], []) with ⟨A, B⟩
    simp only [readDirItems, List.append_assoc, List.foldl_append, hxs,
      List.foldl_cons, List.foldl_nil, classifyItem]
    rw [classifyItem_foldl_fst_indep src dir ys A (B ++ [Event.errorE m]) B]
  · simp [read_dir, h]

/-- Witness for C7 (amended): over `fsOpenErr`, whose `read_dir` call itself
fails with "denied", the listing yields no children and the error is
reported once. -/
theorem c7_read_errors_witness :
    fsOpenErr.listing ["s", "d"] = .error "denied" ∧
    read_dir fsOpenErr ⟨["s"], false⟩ ⟨["s", "d"], false⟩
      = ([], [Event.errorE "denied"]) :=
  ⟨rfl,
    (c7_read_errors_reported_once_not_truncating fsOpenErr ⟨["s"], false⟩
      ⟨["s", "d"], false⟩ [] [] "m" "denied").2.2 rfl⟩

/-- C9 counterexample: REFUTES "a subsequent pop returns the most recently
discovered entry first".  Over `fsTwoKids` the directory `/s/d` lists child
`a` first and child `b` second (so `b` is the most recently discovered), but
because `read_dir` reverses the batch (src/main.rs:116) before it is
appended, popping after the batch push returns the entry for `a`, not
`b`. -/
theorem c9_counterexample_pop_returns_earliest_discovered :
    fsTwoKids.listing ["s", "d"]
      = .ok [DirItem.okItem "a" FileType.file, DirItem.okItem "b" FileType.file] ∧
    (popStack (pushMany []
        (read_dir fsTwoKids ⟨["s"], false⟩ ⟨["s", "d"], false⟩).1)).1
      = some (Entry.File ⟨["s"], false⟩ ⟨["s", "d", "a"], false⟩) ∧
    Entry.File ⟨["s"], false⟩ ⟨["s", "d", "a"], false⟩
      ≠ Entry.File ⟨["s"], false⟩ ⟨["s", "d", "b"], false⟩ :=
  ⟨rfl, rfl, by decide⟩

/-- C9 amended: `push_many` appends its batch in order and `pop` removes and
returns the last element of the stack (or reports empty); but since
`read_dir` reverses the discovered children before the batch is pushed, the
batch arrives in reverse discovery order, so a subsequent pop returns the
*earliest*-discovered entry of the batch first. -/
theorem c9_push_append_pop_last (s xs : List Entry) (x : Entry)
    (src dir : RPath) (na nb : String) :
    pushMany s xs = s ++ xs ∧
    popStack (s ++ [x]) = (some x, s) ∧
    popStack ([] : List Entry) = (none, []) ∧
    (readDirItems src dir
        [DirItem.okItem na FileType.file, DirItem.okItem nb FileType.file]).1
      = [Entry.File src ⟨dir.comps ++ [nb], false⟩,
         Entry.File src ⟨dir.comps ++ [na], false⟩] ∧
    (popStack (pushMany s (readDirItems src dir
        [DirItem.okItem na FileType.file, DirItem.okItem nb FileType.file]).1)).1
      = some (Entry.File src ⟨dir.comps ++ [na], false⟩) := by
  refine ⟨rfl, ?_, rfl, rfl, ?_⟩
  · simp [popStack]
  · simp [pushMany, popStack, readDirItems, classifyItem, List.getLast?_append]

/-- C8: a recoverable filesystem failure is reported as exactly one error
event and never aborts the worker or the run.  First conjunct (failing
copy): the iteration still ends with the same break decision the
environment dictates (`othersIdle`, independent of the failure), the same
remaining stack (so the sibling entries below the failed one are still there
to be processed), the processed counter still incremented (the failed entry
is counted), and exactly one error event emitted.  Second conjunct (failing
`create_dir_all` during a scan): likewise, and the directory's children are
still scanned and pushed. -/
theorem c8_partial_failure_isolation (fs : FS) (dest src file dir : RPath)
    (rest rest' : List Entry) (oi : Bool) (s s' : WState)
    (m m' : String) (nd nd' : RPath) :
    (s.stack = rest ++ [Entry.File src file] →
     get_dest src dest file = some nd →
     fs.copyErr file.comps nd.comps = some m →
       (workerIter fs dest oi s).2 = oi ∧
       (workerIter fs dest oi s).1.stack = rest ∧
       (workerIter fs dest oi s).1.processed = s.processed + 1 ∧
       errCount ((workerIter fs dest oi s).1.trace.drop s.trace.length) = 1) ∧
    (s'.stack = rest' ++ [Entry.Dir src dir] →
     get_dest src dest dir = some nd' →
     fs.mkdirErr nd'.comps = some m' →
       (workerIter fs dest oi s').2 = oi ∧
       (workerIter fs dest oi s').1.stack
         = pushMany rest' (read_dir fs src dir).1 ∧
       (workerIter fs dest oi s').1.processed = s'.processed + 1 ∧
       errCount (mk_dir fs src dest dir) = 1) := by
  constructor
  · intro h₁ h₂ h₃
    have hpop : popStack s.stack = (some (Entry.File src file), rest) := by
      simp [popStack, h₁]
    have hiter : workerIter fs dest oi s
        = (⟨rest, s.processed + 1, Task.Idle,
            s.trace ++ [Event.statusE (Task.Coping file), Event.errorE m,
              Event.statusE Task.Idle]⟩, oi) := by
      simp [workerIter, hpop, fileStep, cp_file, h₂, h₃]
    rw [hiter]
    refine ⟨rfl, rfl, rfl, ?_⟩
    simp [errCount, List.drop_left]
  · intro h₁ h₂ h₃
    have hpop : popStack s'.stack = (some (Entry.Dir src dir), rest') := by
      simp [popStack, h₁]
    rcases hrd : read_dir fs src dir with ⟨kids, scanEvs⟩
    have hiter : workerIter fs dest oi s'
        = (⟨pushMany rest' kids, s'.processed + 1, Task.Idle,
            s'.trace ++ (Event.statusE (Task.Scanning dir)
                :: (mk_dir fs src dest dir ++ scanEvs ++ [Event.pushE kids]))
              ++ [Event.statusE Task.Idle]⟩, oi) := by
      simp [workerIter, hpop, dirStep, hrd]
    rw [hiter]
    refine ⟨rfl, by simp [hrd], rfl, ?_⟩
    simp [mk_dir, h₂, h₃, errCount]

/-- Witness for C8 over `fsDenied`: a denied copy of `/s/d/c` and a denied
`create_dir_all` of `/x/d` each yield exactly one error event, and the
copy-failure iteration still obeys its environment's break decision. -/
theorem c8_partial_failure_isolation_witness :
    (workerIter fsDenied ⟨["x"], false⟩ false
        ⟨[Entry.File ⟨["s"], false⟩ ⟨["s", "d", "c"], false⟩], 0,
          Task.Initalizing, []⟩).2 = false ∧
    errCount ((workerIter fsDenied ⟨["x"], false⟩ false
        ⟨[Entry.File ⟨["s"], false⟩ ⟨["s", "d", "c"], false⟩], 0,
          Task.Initalizing, []⟩).1.trace.drop
        ([] : List Event).length) = 1 ∧
    errCount (mk_dir fsDenied ⟨["s"], false⟩ ⟨["x"], false⟩
        ⟨["s", "d"], false⟩) = 1 :=
  ⟨((c8_partial_failure_isolation fsDenied ⟨["x"], false⟩ ⟨["s"], false⟩
      ⟨["s", "d", "c"], false⟩ ⟨["s", "d"], false⟩ [] [] false
      ⟨[Entry.File ⟨["s"], false⟩ ⟨["s", "d", "c"], false⟩], 0,
        Task.Initalizing, []⟩
      ⟨[Entry.Dir ⟨["s"], false⟩ ⟨["s", "d"], false⟩], 0,
        Task.Initalizing, []⟩
      "copy denied" "mkdir denied" ⟨["x", "d", "c"], false⟩
      ⟨["x", "d"], false⟩).1 rfl (by decide) (by decide)).1,
   ((c8_partial_failure_isolation fsDenied ⟨["x"], false⟩ ⟨["s"], false⟩
      ⟨["s", "d", "c"], false⟩ ⟨["s", "d"], false⟩ [] [] false
      ⟨[Entry.File ⟨["s"], false⟩ ⟨["s", "d", "c"], false⟩], 0,
        Task.Initalizing, []⟩
      ⟨[Entry.Dir ⟨["s"], false⟩ ⟨["s", "d"], false⟩], 0,
        Task.Initalizing, []⟩
      "copy denied" "mkdir denied" ⟨["x", "d", "c"], false⟩
      ⟨["x", "d"], false⟩).1 rfl (by decide) (by decide)).2.2.2,
   ((c8_partial_failure_isolation fsDenied ⟨["x"], false⟩ ⟨["s"], false⟩
      ⟨["s", "d", "c"], false⟩ ⟨["s", "d"], false⟩ [] [] false
      ⟨[Entry.File ⟨["s"], false⟩ ⟨["s", "d", "c"], false⟩], 0,
        Task.Initalizing, []⟩
      ⟨[Entry.Dir ⟨["s"], false⟩ ⟨["s", "d"], false⟩], 0,
        Task.Initalizing, []⟩
      "copy denied" "mkdir denied" ⟨["x", "d", "c"], false⟩
      ⟨["x", "d"], false⟩).2 rfl (by decide) (by decide)).2.2.2⟩

end Cp
